import Mathlib

/-!
# Verification of the wealthsimple-exporter normalization engine and export codec

Shallow embedding of the transaction normalization and export code of the
`wealthsimple-exporter` browser extension, together with theorems checking the
repository's specification against it.

Sources embedded (paths relative to the repository root):
* `src/background/index.ts` (transaction-service section, lines 630-1060):
  `resolveAmount`, `deriveAction`, `generateDescription`, `deriveCategory`,
  `normalizeTransaction`, and the exclusion filter of `fetchTransactions`.
  The repository snapshot also carries a stale earlier revision of this module
  (`src/background/transactionService.ts`); the revision embedded here is the
  one whose 6-argument `fetchTransactions` signature the background entry point
  calls and whose behaviour the repository's unit tests assert, so it is the
  code that runs.
* `src/utils/exporters/csv.ts`: `escapeCSVField`, `generateBudgetingCSV`,
  `generateTradingCSV`, `generateCSV`.
* `src/utils/exporters/payee.ts`: `derivePayee`.
* `src/utils/exporters/ofx.ts`: `sanitizeValue`, `hash32`,
  `isInternalTransfer`, `generateFitId`.

Embedding conventions:
* JavaScript numbers are modelled as `ℚ` (the values handled here are decimal
  amounts; sign and zero behaviour, which the claims are about, agree exactly;
  IEEE-754 negative zero has no separate representative, so `-0` normalization
  appears as the branch returning `0`).
* `parseFloat` is modelled by `parseFloat` below as a partial decimal parser
  returning `Option ℚ` (`none` models `NaN`; JavaScript's `Infinity` results
  are not representable and are also mapped to `none`).
* Nullable fields are `Option`; JS truthiness tests on strings are
  `≠ ""` tests on the `some` case.
* Boolean conditions of the source are written as decidable propositions.
* `charCodeAt` (UTF-16 code unit) is modelled by `Char.toNat` (code point);
  the two agree on all strings appearing in the repository's data (BMP).
-/

/-! ## Small string/number utilities shared by the embedded functions -/

/-- The ASCII whitespace characters matched by the JavaScript `\s` class and
skipped by `parseFloat` / removed by `String.prototype.trim`. -/
def isWsChar (c : Char) : Bool :=
  c == ' ' || c == '\t' || c == '\n' || c == '\r' || c == '\x0b' || c == '\x0c'

/-- Numeric value of a decimal digit character. -/
def digitVal (c : Char) : ℕ := c.toNat - '0'.toNat

/-- Consume a maximal run of decimal digits, returning the accumulated value,
the number of digits consumed, and the rest of the input. -/
def parseDigits : List Char → ℕ → ℕ → ℕ × ℕ × List Char
  | [], v, n => (v, n, [])
  | c :: rest, v, n =>
    if c.isDigit then parseDigits rest (10 * v + digitVal c) (n + 1)
    else (v, n, c :: rest)

/-- Model of JavaScript `parseFloat`: skip leading whitespace, then parse the
longest prefix of the form `[+-]? (digits [. digits?] | . digits) ([eE][+-]?digits)?`.
`none` models a `NaN` result (no numeric prefix); `Infinity` is out of scope of
the `ℚ` model and also maps to `none`. -/
def parseFloat (s : String) : Option ℚ :=
  let cs := s.toList.dropWhile isWsChar
  let (sgn, cs1) : ℚ × List Char :=
    match cs with
    | '-' :: rest => (-1, rest)
    | '+' :: rest => (1, rest)
    | _ => (1, cs)
  let (iv, ic, cs2) := parseDigits cs1 0 0
  let (fv, fc, cs3) :=
    match cs2 with
    | '.' :: rest => parseDigits rest 0 0
    | _ => (0, 0, cs2)
  if ic = 0 ∧ fc = 0 then none
  else
    let mant : ℚ := (iv : ℚ) + (fv : ℚ) / (10 : ℚ) ^ fc
    let ex : ℤ :=
      match cs3 with
      | c :: rest =>
        if c == 'e' || c == 'E' then
          match rest with
          | '-' :: r2 =>
            let (ev, ec, _) := parseDigits r2 0 0
            if ec = 0 then 0 else -(ev : ℤ)
          | '+' :: r2 =>
            let (ev, ec, _) := parseDigits r2 0 0
            if ec = 0 then 0 else (ev : ℤ)
          | r2 =>
            let (ev, ec, _) := parseDigits r2 0 0
            if ec = 0 then 0 else (ev : ℤ)
        else 0
      | [] => 0
    some (sgn * mant * (10 : ℚ) ^ ex)

/-- Model of JavaScript `Array.prototype.join(sep)`. -/
def joinWith (sep : String) : List String → String
  | [] => ""
  | [x] => x
  | x :: y :: xs => x ++ sep ++ joinWith sep (y :: xs)

/-- Decimal digits of `n` left-padded with zeros to `width`. -/
def decPad (n width : ℕ) : String :=
  let s := toString n
  String.mk (List.replicate (width - s.length) '0') ++ s

/-- `toFixedNat d q` formats a nonnegative rational with exactly `d` decimal
digits, rounding half away from zero on the magnitude (the ECMAScript
`toFixed` tie rule for a nonnegative argument). -/
def toFixedNat (d : ℕ) (q : ℚ) : String :=
  let n : ℕ := (⌊q * (10 : ℚ) ^ d + 1 / 2⌋).toNat
  if d = 0 then toString n
  else toString (n / 10 ^ d) ++ "." ++ decPad (n % 10 ^ d) d

/-- Model of JavaScript `Number.prototype.toFixed(d)`: the sign is taken first
and the magnitude is formatted by `toFixedNat`. The binary-double artifacts of
the runtime (e.g. `(0.615).toFixed(2) = "0.61"`) are idealized away: the `ℚ`
value is rounded exactly. -/
def toFixedQ (d : ℕ) (q : ℚ) : String :=
  if q < 0 then "-" ++ toFixedNat d (-q) else toFixedNat d q

/-- Decimal expansion digits of a rational `r/dnm` with `0 < r < dnm`,
up to `fuel` digits (used by `numToString` below). -/
def fracDigits : ℕ → ℕ → ℕ → List Char
  | 0, _, _ => []
  | fuel + 1, r, dnm =>
    if r = 0 then []
    else
      let r10 := r * 10
      Char.ofNat ('0'.toNat + r10 / dnm) :: fracDigits fuel (r10 % dnm) dnm

/-- Model of JavaScript `Number.prototype.toString` (default radix) for the
finite-decimal values arising in this code; the fractional expansion is cut
off at 30 digits, more than a double ever prints. -/
def numToString (q : ℚ) : String :=
  let sgn := if q < 0 then "-" else ""
  let aq := |q|
  let ip : ℕ := (⌊aq⌋).toNat
  let fr : ℚ := aq - (ip : ℚ)
  if fr = 0 then sgn ++ toString ip
  else sgn ++ toString ip ++ "." ++ String.mk (fracDigits 30 fr.num.toNat fr.den)

/-- ASCII uppercase conversion of one character (the fragment of JS
`toUpperCase` exercised by this code, whose inputs are ASCII). -/
def upChar (c : Char) : Char :=
  if 'a' ≤ c ∧ c ≤ 'z' then Char.ofNat (c.toNat - 32) else c

/-- ASCII lowercase conversion of one character. -/
def downChar (c : Char) : Char :=
  if 'A' ≤ c ∧ c ≤ 'Z' then Char.ofNat (c.toNat + 32) else c

/-- Model of `String.prototype.toUpperCase` (ASCII fragment). -/
def asciiToUpper (s : String) : String := String.mk (s.toList.map upChar)

/-- Model of `String.prototype.toLowerCase` (ASCII fragment). -/
def asciiToLower (s : String) : String := String.mk (s.toList.map downChar)

/-- Model of `String.prototype.trim` (ASCII whitespace fragment). -/
def trimStr (s : String) : String :=
  String.mk (((s.toList.dropWhile isWsChar).reverse.dropWhile isWsChar).reverse)

/-- Does the string start with the given chunk?  Models `startsWith`. -/
def leadsWith (s chunk : String) : Bool := chunk.toList.isPrefixOf s.toList

/-- `some s` when the optional string is JS-truthy (present and non-empty). -/
def optNonEmpty : Option String → Option String
  | some s => if s = "" then none else some s
  | none => none

/-- Is `sub` a contiguous sublist of `s`?  Models `String.prototype.includes`. -/
def hasSub (sub s : List Char) : Bool :=
  sub.isPrefixOf s ||
    match s with
    | [] => false
    | _ :: rest => hasSub sub rest

/-- `String.prototype.includes` on strings. -/
def strIncludes (s sub : String) : Bool := hasSub sub.toList s.toList

/-! ## Data model (`src/utils/types.ts`) -/

/-- The `amountSign` tri-state of a raw activity (`'DEBIT' | 'CREDIT' | null`;
the `null` case is the `Option.none` of the embedding). -/
inductive AmountSign where
  | DEBIT
  | CREDIT
deriving DecidableEq, Repr

/-- A raw provider activity (`Activity` in `src/utils/types.ts`), restricted to
the fields the embedded functions read; the remaining provider fields are never
consulted by the normalization engine. -/
structure Activity where
  accountId : String
  aftOriginatorName : Option String
  amount : Option String
  amountSign : Option AmountSign
  assetQuantity : Option String
  assetSymbol : Option String
  billPayCompanyName : Option String
  canonicalId : String
  currency : Option String
  eTransferName : Option String
  occurredAt : String
  opposingAccountId : Option String
  p2pHandle : Option String
  spendMerchant : Option String
  status : String
  subType : Option String
  type : String
deriving DecidableEq, Repr

/-- The canonical transaction (`NormalizedTransaction` in `src/utils/types.ts`). -/
structure NormalizedTransaction where
  id : String
  date : String
  description : String
  amount : ℚ
  currency : String
  category : String
  accountId : String
  symbol : Option String
  action : Option String
  quantity : Option ℚ
  price : Option ℚ
deriving DecidableEq, Repr

/-! ## Amount resolver (`src/background/index.ts` lines 797-862) -/

/-- The raw parsed amount of an activity: `parseFloat(activity.amount)` with
absent amounts read as `0` and an unparsable string read as `0` (the `NaN`
early return of the source). -/
def parsedRawAmount (a : Activity) : ℚ :=
  (match a.amount with
   | none => some (0 : ℚ)
   | some s => parseFloat s).getD 0

/-- `resolveAmount(activity, isCreditCard)`: sign resolution for an activity.
`amountSign` dominates; with no sign, the type/subtype fallback applies; with
no matching rule the raw value is returned unchanged. -/
def resolveAmount (a : Activity) (isCreditCard : Bool) : ℚ :=
  match (match a.amount with
         | none => some (0 : ℚ)
         | some s => parseFloat s) with
  | none => 0
  | some rawAmount =>
    match a.amountSign with
    | some AmountSign.DEBIT =>
      let debit := -|rawAmount|
      if debit = 0 then 0 else debit
    | some AmountSign.CREDIT => |rawAmount|
    | none =>
      let ty := asciiToUpper a.type
      let sub := asciiToUpper (a.subType.getD "")
      if ty ∈ ["DIY_BUY", "MANAGED_BUY", "CRYPTO_BUY", "WITHDRAWAL", "FEE",
               "NON_RESIDENT_TAX", "TAX"] ∨ (ty = "CREDIT_CARD" ∧ sub = "PURCHASE") then
        -|rawAmount|
      else if ty ∈ ["DIY_SELL", "MANAGED_SELL", "CRYPTO_SELL", "DEPOSIT", "DIVIDEND",
                    "INTEREST", "REIMBURSEMENT", "REFUND", "PROMOTION", "REFERRAL"] then
        |rawAmount|
      else if ty = "CREDIT_CARD_PAYMENT" ∨
              (ty = "CREDIT_CARD" ∧ (sub = "PAYMENT" ∨ sub = "REFUND")) then
        if isCreditCard then |rawAmount| else -|rawAmount|
      else if ty = "INTERNAL_TRANSFER" ∨ ty = "ASSET_MOVEMENT" then
        if sub = "SOURCE" then -|rawAmount| else |rawAmount|
      else if ty = "P2P_PAYMENT" then
        if sub = "SEND" then -|rawAmount| else |rawAmount|
      else rawAmount

/-! ## Claim C1 -/

/-- **C1.** For every activity whose `amountSign` is `DEBIT`, the resolved
amount equals `-abs(parsed amount)` (negative zero normalized to zero, which in
`ℚ` is the identity on the branch value), hence is `≤ 0`; for `CREDIT`, it
equals `abs(parsed amount)`, hence is `≥ 0`. -/
theorem claim_C1 (a : Activity) (cc : Bool) :
    (a.amountSign = some AmountSign.DEBIT →
      resolveAmount a cc = -|parsedRawAmount a| ∧ resolveAmount a cc ≤ 0) ∧
    (a.amountSign = some AmountSign.CREDIT →
      resolveAmount a cc = |parsedRawAmount a| ∧ 0 ≤ resolveAmount a cc) := by
  unfold resolveAmount parsedRawAmount
  cases hp : (match a.amount with
              | none => some (0 : ℚ)
              | some s => parseFloat s) with
  | none =>
    simp only [Option.getD_none]
    constructor <;> intro _ <;> simp
  | some q =>
    simp only [Option.getD_some]
    constructor <;> intro hs <;> rw [hs]
    · constructor
      · by_cases h0 : -|q| = 0 <;> simp [h0]
      · by_cases h0 : -|q| = 0 <;> simp [h0]
    · exact ⟨rfl, abs_nonneg q⟩

/-- A concrete template activity shared by the witness instantiations. -/
def baseActivity : Activity :=
  { accountId := "acc-1", aftOriginatorName := none, amount := some "100.50",
    amountSign := some AmountSign.DEBIT, assetQuantity := none, assetSymbol := none,
    billPayCompanyName := none, canonicalId := "id-1", currency := some "CAD",
    eTransferName := none, occurredAt := "2024-01-15T10:30:00Z",
    opposingAccountId := none, p2pHandle := none, spendMerchant := none,
    status := "completed", subType := none, type := "WITHDRAWAL" }

theorem claim_C1_witness :
    resolveAmount baseActivity false = -|parsedRawAmount baseActivity| ∧
      resolveAmount baseActivity false ≤ 0 :=
  (claim_C1 baseActivity false).1 rfl

/-! ## Claim C3 -/

/-- **C3.** The amount resolver is total (it is a Lean function into `ℚ`, so it
returns a value on every activity and cannot throw), and whenever the `amount`
field is absent, or is a string that fails to parse as a decimal, the result is
exactly `0`, for every `amountSign` value. -/
theorem claim_C3 (a : Activity) (cc : Bool)
    (h : a.amount = none ∨ ∃ s, a.amount = some s ∧ parseFloat s = none) :
    resolveAmount a cc = 0 := by
  unfold resolveAmount
  rcases h with h | ⟨s, hs, hp⟩
  · rw [h]
    cases a.amountSign with
    | none => simp only; split_ifs <;> simp
    | some sg => cases sg <;> simp
  · simp [hs, hp]

/-- Witness for C3 at a concrete activity with an unparsable amount string. -/
def c3Activity : Activity :=
  { baseActivity with amount := some "invalid", amountSign := some AmountSign.CREDIT }

theorem claim_C3_witness : resolveAmount c3Activity true = 0 :=
  claim_C3 c3Activity true (Or.inr ⟨"invalid", rfl, rfl⟩)

/-! ## Claim C2 -/

/-- The type/subtype fallback branch of `resolveAmount`, abstracted over the
uppercased type/subtype and the raw parsed amount (proof helper). -/
def fallbackAmount (ty sub : String) (cc : Bool) (raw : ℚ) : ℚ :=
  if ty ∈ ["DIY_BUY", "MANAGED_BUY", "CRYPTO_BUY", "WITHDRAWAL", "FEE",
           "NON_RESIDENT_TAX", "TAX"] ∨ (ty = "CREDIT_CARD" ∧ sub = "PURCHASE") then
    -|raw|
  else if ty ∈ ["DIY_SELL", "MANAGED_SELL", "CRYPTO_SELL", "DEPOSIT", "DIVIDEND",
                "INTEREST", "REIMBURSEMENT", "REFUND", "PROMOTION", "REFERRAL"] then
    |raw|
  else if ty = "CREDIT_CARD_PAYMENT" ∨
          (ty = "CREDIT_CARD" ∧ (sub = "PAYMENT" ∨ sub = "REFUND")) then
    if cc then |raw| else -|raw|
  else if ty = "INTERNAL_TRANSFER" ∨ ty = "ASSET_MOVEMENT" then
    if sub = "SOURCE" then -|raw| else |raw|
  else if ty = "P2P_PAYMENT" then
    if sub = "SEND" then -|raw| else |raw|
  else raw

theorem resolveAmount_of_sign_none (a : Activity) (cc : Bool)
    (hs : a.amountSign = none) :
    resolveAmount a cc =
      fallbackAmount (asciiToUpper a.type) (asciiToUpper (a.subType.getD "")) cc
        (parsedRawAmount a) := by
  unfold resolveAmount parsedRawAmount fallbackAmount
  cases hp : (match a.amount with
              | none => some (0 : ℚ)
              | some s => parseFloat s) with
  | none => simp only [Option.getD_none]; split_ifs <;> simp
  | some q => rw [hs]; simp only [Option.getD_some]

theorem fallback_outflow (ty sub : String) (cc : Bool) (raw : ℚ)
    (h : ty ∈ ["DIY_BUY", "MANAGED_BUY", "CRYPTO_BUY", "WITHDRAWAL", "FEE",
               "NON_RESIDENT_TAX", "TAX"] ∨ (ty = "CREDIT_CARD" ∧ sub = "PURCHASE")) :
    fallbackAmount ty sub cc raw = -|raw| := by
  unfold fallbackAmount
  rw [if_pos h]

theorem fallback_inflow (ty sub : String) (cc : Bool) (raw : ℚ)
    (h : ty ∈ ["DIY_SELL", "MANAGED_SELL", "CRYPTO_SELL", "DEPOSIT", "DIVIDEND",
               "INTEREST", "REIMBURSEMENT", "REFUND", "PROMOTION", "REFERRAL"]) :
    fallbackAmount ty sub cc raw = |raw| := by
  unfold fallbackAmount
  have h1 : ¬(ty ∈ ["DIY_BUY", "MANAGED_BUY", "CRYPTO_BUY", "WITHDRAWAL", "FEE",
      "NON_RESIDENT_TAX", "TAX"] ∨ (ty = "CREDIT_CARD" ∧ sub = "PURCHASE")) := by
    simp only [List.mem_cons, List.not_mem_nil, or_false] at h ⊢
    rcases h with rfl | rfl | rfl | rfl | rfl | rfl | rfl | rfl | rfl | rfl <;>
      rintro (hc | ⟨hc, -⟩) <;> revert hc <;> decide
  rw [if_neg h1, if_pos h]

theorem fallback_ccpay (ty sub : String) (cc : Bool) (raw : ℚ)
    (h : ty = "CREDIT_CARD_PAYMENT" ∨
         (ty = "CREDIT_CARD" ∧ (sub = "PAYMENT" ∨ sub = "REFUND"))) :
    fallbackAmount ty sub cc raw = if cc then |raw| else -|raw| := by
  unfold fallbackAmount
  have h1 : ¬(ty ∈ ["DIY_BUY", "MANAGED_BUY", "CRYPTO_BUY", "WITHDRAWAL", "FEE",
      "NON_RESIDENT_TAX", "TAX"] ∨ (ty = "CREDIT_CARD" ∧ sub = "PURCHASE")) := by
    rcases h with rfl | ⟨rfl, hsub⟩
    · rintro (hc | ⟨hc, -⟩) <;> revert hc <;> decide
    · rintro (hc | ⟨-, hc⟩)
      · revert hc; decide
      · rcases hsub with rfl | rfl <;> revert hc <;> decide
  have h2 : ¬(ty ∈ ["DIY_SELL", "MANAGED_SELL", "CRYPTO_SELL", "DEPOSIT", "DIVIDEND",
      "INTEREST", "REIMBURSEMENT", "REFUND", "PROMOTION", "REFERRAL"]) := by
    rcases h with rfl | ⟨rfl, -⟩ <;> decide
  rw [if_neg h1, if_neg h2, if_pos h]

theorem fallback_transfer (ty sub : String) (cc : Bool) (raw : ℚ)
    (h : ty = "INTERNAL_TRANSFER" ∨ ty = "ASSET_MOVEMENT") :
    fallbackAmount ty sub cc raw = if sub = "SOURCE" then -|raw| else |raw| := by
  unfold fallbackAmount
  have h1 : ¬(ty ∈ ["DIY_BUY", "MANAGED_BUY", "CRYPTO_BUY", "WITHDRAWAL", "FEE",
      "NON_RESIDENT_TAX", "TAX"] ∨ (ty = "CREDIT_CARD" ∧ sub = "PURCHASE")) := by
    rcases h with rfl | rfl <;> rintro (hc | ⟨hc, -⟩) <;> revert hc <;> decide
  have h2 : ¬(ty ∈ ["DIY_SELL", "MANAGED_SELL", "CRYPTO_SELL", "DEPOSIT", "DIVIDEND",
      "INTEREST", "REIMBURSEMENT", "REFUND", "PROMOTION", "REFERRAL"]) := by
    rcases h with rfl | rfl <;> decide
  have h3 : ¬(ty = "CREDIT_CARD_PAYMENT" ∨
      (ty = "CREDIT_CARD" ∧ (sub = "PAYMENT" ∨ sub = "REFUND"))) := by
    rcases h with rfl | rfl <;> rintro (hc | ⟨hc, -⟩) <;> revert hc <;> decide
  rw [if_neg h1, if_neg h2, if_neg h3, if_pos h]

theorem fallback_p2p (ty sub : String) (cc : Bool) (raw : ℚ)
    (h : ty = "P2P_PAYMENT") :
    fallbackAmount ty sub cc raw = if sub = "SEND" then -|raw| else |raw| := by
  unfold fallbackAmount
  subst h
  have h1 : ¬(("P2P_PAYMENT" : String) ∈ ["DIY_BUY", "MANAGED_BUY", "CRYPTO_BUY",
      "WITHDRAWAL", "FEE", "NON_RESIDENT_TAX", "TAX"] ∨
      (("P2P_PAYMENT" : String) = "CREDIT_CARD" ∧ sub = "PURCHASE")) := by
    rintro (hc | ⟨hc, -⟩) <;> revert hc <;> decide
  have h3 : ¬(("P2P_PAYMENT" : String) = "CREDIT_CARD_PAYMENT" ∨
      (("P2P_PAYMENT" : String) = "CREDIT_CARD" ∧ (sub = "PAYMENT" ∨ sub = "REFUND"))) := by
    rintro (hc | ⟨hc, -⟩) <;> revert hc <;> decide
  have h4 : ¬(("P2P_PAYMENT" : String) = "INTERNAL_TRANSFER" ∨
      ("P2P_PAYMENT" : String) = "ASSET_MOVEMENT") := by decide
  rw [if_neg h1, if_neg (by decide), if_neg h3, if_neg h4, if_pos rfl]

/-- **C2.** With `amountSign` absent, the resolver infers the sign from
type/subtype: outflow types (buys, withdrawals, fees, non-resident tax, generic
tax, credit-card purchases) give `-abs`; inflow types (sells, deposits,
dividends, interest, reimbursement, refund, promotion, referral) give `+abs`;
credit-card payment/refund flips on `isCreditCardContext`; internal
transfer/asset movement is negative exactly for subtype `SOURCE`; P2P is
negative exactly for subtype `SEND`; an activity matching none of these rules
returns the raw value unchanged. -/
theorem claim_C2 (a : Activity) (cc : Bool) (hs : a.amountSign = none) :
    ((asciiToUpper a.type ∈ ["DIY_BUY", "MANAGED_BUY", "CRYPTO_BUY", "WITHDRAWAL", "FEE",
        "NON_RESIDENT_TAX", "TAX"] ∨
      (asciiToUpper a.type = "CREDIT_CARD" ∧ asciiToUpper (a.subType.getD "") = "PURCHASE")) →
      resolveAmount a cc = -|parsedRawAmount a|) ∧
    (asciiToUpper a.type ∈ ["DIY_SELL", "MANAGED_SELL", "CRYPTO_SELL", "DEPOSIT", "DIVIDEND",
        "INTEREST", "REIMBURSEMENT", "REFUND", "PROMOTION", "REFERRAL"] →
      resolveAmount a cc = |parsedRawAmount a|) ∧
    ((asciiToUpper a.type = "CREDIT_CARD_PAYMENT" ∨
      (asciiToUpper a.type = "CREDIT_CARD" ∧
        (asciiToUpper (a.subType.getD "") = "PAYMENT" ∨ asciiToUpper (a.subType.getD "") = "REFUND"))) →
      resolveAmount a cc = if cc then |parsedRawAmount a| else -|parsedRawAmount a|) ∧
    ((asciiToUpper a.type = "INTERNAL_TRANSFER" ∨ asciiToUpper a.type = "ASSET_MOVEMENT") →
      resolveAmount a cc =
        if asciiToUpper (a.subType.getD "") = "SOURCE" then -|parsedRawAmount a|
        else |parsedRawAmount a|) ∧
    (asciiToUpper a.type = "P2P_PAYMENT" →
      resolveAmount a cc =
        if asciiToUpper (a.subType.getD "") = "SEND" then -|parsedRawAmount a|
        else |parsedRawAmount a|) ∧
    (¬((asciiToUpper a.type ∈ ["DIY_BUY", "MANAGED_BUY", "CRYPTO_BUY", "WITHDRAWAL", "FEE",
          "NON_RESIDENT_TAX", "TAX"] ∨
        (asciiToUpper a.type = "CREDIT_CARD" ∧ asciiToUpper (a.subType.getD "") = "PURCHASE")) ∨
       asciiToUpper a.type ∈ ["DIY_SELL", "MANAGED_SELL", "CRYPTO_SELL", "DEPOSIT", "DIVIDEND",
          "INTEREST", "REIMBURSEMENT", "REFUND", "PROMOTION", "REFERRAL"] ∨
       (asciiToUpper a.type = "CREDIT_CARD_PAYMENT" ∨
        (asciiToUpper a.type = "CREDIT_CARD" ∧
          (asciiToUpper (a.subType.getD "") = "PAYMENT" ∨ asciiToUpper (a.subType.getD "") = "REFUND"))) ∨
       (asciiToUpper a.type = "INTERNAL_TRANSFER" ∨ asciiToUpper a.type = "ASSET_MOVEMENT") ∨
       asciiToUpper a.type = "P2P_PAYMENT") →
      resolveAmount a cc = parsedRawAmount a) := by
  rw [resolveAmount_of_sign_none a cc hs]
  refine ⟨fun h => fallback_outflow _ _ _ _ h,
          fun h => fallback_inflow _ _ _ _ h,
          fun h => fallback_ccpay _ _ _ _ h,
          fun h => fallback_transfer _ _ _ _ h,
          fun h => fallback_p2p _ _ _ _ h,
          fun h => ?_⟩
  unfold fallbackAmount
  rw [if_neg (fun hc => h (Or.inl hc)),
      if_neg (fun hc => h (Or.inr (Or.inl hc))),
      if_neg (fun hc => h (Or.inr (Or.inr (Or.inl hc)))),
      if_neg (fun hc => h (Or.inr (Or.inr (Or.inr (Or.inl hc))))),
      if_neg (fun hc => h (Or.inr (Or.inr (Or.inr (Or.inr hc)))))]

/-- Witness for C2 at a concrete signless buy activity. -/
def c2Activity : Activity :=
  { baseActivity with amount := some "100.00", amountSign := none, type := "DIY_BUY" }

theorem claim_C2_witness : resolveAmount c2Activity false = -|parsedRawAmount c2Activity| :=
  (claim_C2 c2Activity false rfl).1 (by decide)

/-! ## Description / category / action derivers
(`src/background/index.ts` lines 867-1025) -/

/-- Model of `Map.prototype.get` on the caller-supplied account-id to
display-name map, which the embedding carries as an association list. -/
def lookupName (m : List (String × String)) (k : String) : Option String :=
  (m.find? (fun p => p.1 == k)).map (fun p => p.2)

/-- `generateDescription(a, accountMap)`: human-readable description of an
activity (full per-type dispatch of the source; the source's unused local
`dir` of the internal-transfer branch is dead code and has no counterpart). -/
def generateDescription (a : Activity) (accountMap : List (String × String)) : String :=
  if a.type ∈ ["DIY_BUY", "DIY_SELL", "MANAGED_BUY", "MANAGED_SELL",
               "CRYPTO_BUY", "CRYPTO_SELL"] then
    let action := if strIncludes a.type "BUY" then "Buy" else "Sell"
    let symbol := a.assetSymbol.getD "Unknown"
    match (match a.assetQuantity with
           | none => none
           | some s => parseFloat s) with
    | some qty =>
      if 0 < qty then action ++ " " ++ numToString qty ++ " x " ++ symbol
      else action ++ " " ++ symbol
    | none => action ++ " " ++ symbol
  else if a.type = "DEPOSIT" ∨ a.type = "WITHDRAWAL" then
    let dir := if a.type = "DEPOSIT" then "Deposit" else "Withdrawal"
    if a.subType = some "E_TRANSFER" ∨ a.subType = some "E_TRANSFER_FUNDING" then
      dir ++ ": e-Transfer" ++
        (match optNonEmpty a.eTransferName with | some n => " " ++ n | none => "")
    else if a.subType = some "EFT" then dir ++ ": EFT"
    else if a.subType = some "AFT" then
      dir ++ ": AFT" ++
        (match optNonEmpty a.aftOriginatorName with | some n => " " ++ n | none => "")
    else if a.subType = some "BILL_PAY" then
      dir ++ ": Bill pay" ++
        (match optNonEmpty a.billPayCompanyName with | some n => " " ++ n | none => "")
    else if a.subType = some "PAYMENT_CARD_TRANSACTION" then dir ++ ": Debit card funding"
    else
      match optNonEmpty a.spendMerchant with
      | some m => m
      | none => dir
  else if a.type = "CREDIT_CARD" ∧ a.subType = some "PURCHASE" then
    a.spendMerchant.getD "Credit card purchase"
  else if a.type = "CREDIT_CARD" ∧ a.subType = some "HOLD" then
    match optNonEmpty a.spendMerchant with
    | some m => m ++ " (Hold)"
    | none => "Credit card hold"
  else if a.type = "CREDIT_CARD" ∧ a.subType = some "REFUND" then
    match optNonEmpty a.spendMerchant with
    | some m => m ++ " (Refund)"
    | none => "Refund"
  else if a.type = "CREDIT_CARD" ∧ a.subType = some "PAYMENT" then "Credit card payment"
  else if a.type = "CREDIT_CARD_PAYMENT" then "Credit card payment"
  else if a.type = "INTERNAL_TRANSFER" ∨ a.type = "ASSET_MOVEMENT" then
    let accountRef :=
      match a.opposingAccountId with
      | none => "unknown"
      | some oid =>
        if oid ≠ "" then
          match lookupName accountMap oid with
          | some n => if n ≠ "" then n else oid
          | none => oid
        else oid
    let preposition := if a.subType = some "SOURCE" then "to" else "from"
    "Transfer " ++ preposition ++ " " ++ accountRef
  else if a.type = "DIVIDEND" then "Dividend: " ++ a.assetSymbol.getD "Unknown"
  else if a.type = "INTEREST" then
    if a.subType = some "FPL_INTEREST" then "Stock Lending Earnings" else "Interest"
  else if a.type = "REFUND" then
    if a.subType = some "TRANSFER_FEE_REFUND" then "Reimbursement: transfer fee" else "Refund"
  else if a.type = "P2P_PAYMENT" then
    "Cash " ++ (if a.subType = some "SEND" then "sent to" else "received from") ++
      (match optNonEmpty a.p2pHandle with | some h => " " ++ h | none => "")
  else if a.type = "FEE" then "Management fee"
  else if a.type = "NON_RESIDENT_TAX" then "Non-resident tax"
  else if a.type = "FUNDS_CONVERSION" then "Funds converted: " ++ a.currency.getD "N/A"
  else if a.type = "REIMBURSEMENT" then "Reimbursement"
  else if a.type = "PROMOTION" ∨ a.type = "REFERRAL" then "Bonus"
  else a.type ++ ": " ++ a.subType.getD "N/A"

/-- `deriveCategory(a)`: category label of an activity. -/
def deriveCategory (a : Activity) : String :=
  if a.type ∈ ["DIY_BUY", "MANAGED_BUY", "CRYPTO_BUY"] then "Investment Buy"
  else if a.type ∈ ["DIY_SELL", "MANAGED_SELL", "CRYPTO_SELL"] then "Investment Sell"
  else if a.type = "DEPOSIT" then "Deposit"
  else if a.type = "WITHDRAWAL" then "Withdrawal"
  else if a.type = "DIVIDEND" then "Dividend"
  else if a.type = "INTEREST" then "Interest"
  else if a.type = "INTERNAL_TRANSFER" ∨ a.type = "ASSET_MOVEMENT" then "Transfer"
  else if a.type = "CREDIT_CARD" ∧ a.subType = some "PURCHASE" then "Purchase"
  else if a.type = "CREDIT_CARD" ∧ a.subType = some "PAYMENT" then "Credit Card Payment"
  else if a.type = "CREDIT_CARD" ∧ (a.subType = some "REFUND" ∨ a.subType = some "HOLD") then
    "Refund"
  else if a.type = "CREDIT_CARD_PAYMENT" then "Credit Card Payment"
  else if a.type = "REFUND" then "Refund"
  else if a.type = "FEE" then "Fee"
  else if a.type = "NON_RESIDENT_TAX" then "Tax"
  else if a.type = "FUNDS_CONVERSION" then "Currency Conversion"
  else if a.type = "P2P_PAYMENT" then "P2P Payment"
  else if a.type = "REIMBURSEMENT" then "Reimbursement"
  else if a.type = "PROMOTION" ∨ a.type = "REFERRAL" then "Bonus"
  else "Other"

/-- `deriveAction(a)`: simplified action label for trading CSVs. -/
def deriveAction (a : Activity) : String :=
  if strIncludes a.type "BUY" then "Buy"
  else if strIncludes a.type "SELL" then "Sell"
  else if a.type = "DIVIDEND" then "Dividend"
  else if a.type = "DEPOSIT" then "Deposit"
  else if a.type = "WITHDRAWAL" then "Withdrawal"
  else if a.type = "FEE" then "Fee"
  else if a.type = "INTEREST" then "Interest"
  else if a.type = "INTERNAL_TRANSFER" then "Transfer"
  else if a.type = "FUNDS_CONVERSION" then "Conversion"
  else deriveCategory a

/-! ## Activity normalizer (`src/background/index.ts` lines 1031-1059 and the
exclusion filter of `fetchTransactions`, lines 777-790) -/

/-- `normalizeTransaction(activity, accountMap, isCreditCard)`.  The JS
`NaN` quantity produced by an unparsable `assetQuantity` string is modelled as
`none` (both are falsy in every later test of the code). -/
def normalizeTransaction (activity : Activity) (accountMap : List (String × String))
    (isCreditCard : Bool) : NormalizedTransaction :=
  let amount := resolveAmount activity isCreditCard
  let quantity : Option ℚ :=
    match activity.assetQuantity with
    | some s => if s ≠ "" then parseFloat s else none
    | none => none
  let price : Option ℚ :=
    match quantity with
    | some q =>
      if q ≠ 0 then
        match activity.amount with
        | some amt =>
          if amt ≠ "" then
            match parseFloat amt with
            | some av => some (|av| / q)
            | none => none
          else none
        | none => none
      else none
    | none => none
  { id := activity.canonicalId
    date := String.mk (activity.occurredAt.toList.takeWhile (fun c => c != 'T'))
    description := generateDescription activity accountMap
    amount := amount
    currency := activity.currency.getD "CAD"
    category := deriveCategory activity
    accountId := activity.accountId
    symbol := activity.assetSymbol
    action := some (deriveAction activity)
    quantity := quantity
    price := price }

/-- `EXCLUDED_STATUSES` of the source. -/
def EXCLUDED_STATUSES : List String := ["rejected", "cancelled", "expired"]

/-- `EXCLUDED_TYPES` of the source. -/
def EXCLUDED_TYPES : List String := ["LEGACY_TRANSFER"]

/-- The per-record predicate of the exclusion filter inside `fetchTransactions`
(a record is kept when neither set matches). -/
def keepActivity (a : Activity) : Bool :=
  !(EXCLUDED_TYPES.contains (asciiToUpper a.type)) &&
    !(EXCLUDED_STATUSES.contains (asciiToLower a.status))

/-- The pure core of `fetchTransactions` on one already-fetched batch: filter
out excluded records, then normalize each survivor (pagination and network are
outside the embedded core). -/
def normalizeActivities (batch : List Activity) (accountMap : List (String × String))
    (isCreditCard : Bool) : List NormalizedTransaction :=
  (batch.filter keepActivity).map (fun a => normalizeTransaction a accountMap isCreditCard)

theorem keepActivity_iff (a : Activity) :
    keepActivity a = true ↔
      ¬(asciiToLower a.status ∈ ["rejected", "cancelled", "expired"] ∨
        asciiToUpper a.type = "LEGACY_TRANSFER") := by
  unfold keepActivity EXCLUDED_STATUSES EXCLUDED_TYPES
  simp only [List.contains, Bool.and_eq_true, Bool.not_eq_true', List.elem_eq_mem,
    decide_eq_false_iff_not, not_or, List.mem_singleton, List.mem_cons, List.not_mem_nil,
    or_false]
  tauto

/-! ## Claim C4 -/

/-- **C4.** On every batch, a record whose status is (case-insensitively) one
of `rejected`/`cancelled`/`expired`, or whose type is (case-insensitively)
`LEGACY_TRANSFER`, never survives the exclusion filter; the surviving records
are exactly the non-excluded ones, in input order (the filter output is a
sublist of the batch), and the normalizer output maps them 1:1. -/
theorem claim_C4 (batch : List Activity) (m : List (String × String)) (cc : Bool) :
    List.Sublist (batch.filter keepActivity) batch ∧
    (∀ a ∈ batch,
      ((asciiToLower a.status ∈ ["rejected", "cancelled", "expired"] ∨
        asciiToUpper a.type = "LEGACY_TRANSFER") ↔ a ∉ batch.filter keepActivity)) ∧
    normalizeActivities batch m cc =
      (batch.filter keepActivity).map (fun a => normalizeTransaction a m cc) := by
  refine ⟨List.filter_sublist batch, fun a ha => ?_, rfl⟩
  constructor
  · intro hex hmem
    rw [List.mem_filter] at hmem
    exact ((keepActivity_iff a).mp hmem.2) hex
  · intro hnm
    by_contra hex
    exact hnm (List.mem_filter.mpr ⟨ha, (keepActivity_iff a).mpr hex⟩)

/-- Witness inputs for C4: one excluded and one kept record. -/
def c4Excluded : Activity :=
  { baseActivity with status := "Rejected", canonicalId := "x1" }

def c4Kept : Activity :=
  { baseActivity with status := "completed", canonicalId := "x2" }

theorem claim_C4_witness :
    c4Excluded ∉ [c4Excluded, c4Kept].filter keepActivity ∧
    normalizeActivities [c4Excluded, c4Kept] [] false =
      ([c4Excluded, c4Kept].filter keepActivity).map
        (fun a => normalizeTransaction a [] false) :=
  ⟨((claim_C4 [c4Excluded, c4Kept] [] false).2.1 c4Excluded (by simp)).mp
      (Or.inl (by decide)),
   (claim_C4 [c4Excluded, c4Kept] [] false).2.2⟩

/-! ## Payee deriver (`src/utils/exporters/payee.ts`) -/

/-- Case-insensitive `startsWith` (the `/^.../i` anchor of the source regexes;
ASCII fragment). -/
def ciLeadsWith (s chunk : String) : Bool :=
  leadsWith (asciiToLower s) (asciiToLower chunk)

/-- One primary-prefix strip: models `payee.replace(/^{pat}\s*`/i, '')`. -/
def stripPrimaryPat (s pat : String) : String :=
  if ciLeadsWith s pat then String.mk ((s.toList.drop pat.length).dropWhile isWsChar)
  else s

/-- One secondary-prefix strip: models `payee.replace(/^{pat}\s+/i, '')`
(at least one whitespace character must follow the pattern). -/
def stripSecondaryPat (s pat : String) : String :=
  if ciLeadsWith s pat then
    match s.toList.drop pat.length with
    | c :: rest =>
      if isWsChar c then String.mk (List.dropWhile isWsChar (c :: rest)) else s
    | [] => s
  else s

/-- The primary prefix patterns of the source, in order. -/
def primaryPats : List String :=
  ["Withdrawal:", "Deposit:", "Credit card purchase:", "Credit card hold:",
   "Credit card refund:"]

/-- The secondary prefix patterns of the source, in order. -/
def secondaryPats : List String := ["AFT", "e-Transfer", "EFT", "Bill pay"]

/-- `derivePayee(description)`: strip known provider prefixes; if the result is
empty, return the trimmed original. -/
def derivePayee (description : String) : String :=
  let original := trimStr description
  let p1 := primaryPats.foldl stripPrimaryPat original
  let p2 := secondaryPats.foldl stripSecondaryPat p1
  let payee := trimStr p2
  if payee.length > 0 then payee else original

/-! ## CSV codec (`src/utils/exporters/csv.ts`) -/

/-- Double every `"` in the character list (the `/"/g → ""` replacement). -/
def doubleQuotes : List Char → List Char
  | [] => []
  | c :: rest =>
    if c = '"' then '"' :: '"' :: doubleQuotes rest else c :: doubleQuotes rest

/-- `escapeCSVField(field)`: quote and double internal quotes exactly when the
field contains a comma, a double quote, or a line break. -/
def escapeCSVField (field : String) : String :=
  if field.toList.contains ',' || field.toList.contains '"' ||
     field.toList.contains '\n' || field.toList.contains '\r' then
    "\"" ++ String.mk (doubleQuotes field.toList) ++ "\""
  else field

/-- The `Memo` column of a budgeting row: the truthy components of
`[category, accountId]` joined with `" | "`. -/
def budgetMemo (t : NormalizedTransaction) : String :=
  joinWith " | " ((if t.category = "" then [] else [t.category]) ++
    (if t.accountId = "" then [] else [t.accountId]))

/-- The `Outflow` column of a budgeting row. -/
def budgetOutflow (t : NormalizedTransaction) : String :=
  if t.amount < 0 then toFixedQ 2 |t.amount| else ""

/-- The `Inflow` column of a budgeting row. -/
def budgetInflow (t : NormalizedTransaction) : String :=
  if 0 ≤ t.amount then toFixedQ 2 t.amount else ""

/-- One data row of `generateBudgetingCSV`. -/
def budgetingRow (t : NormalizedTransaction) : String :=
  joinWith "," [t.date, escapeCSVField (derivePayee t.description),
    escapeCSVField (budgetMemo t), budgetOutflow t, budgetInflow t]

/-- `generateBudgetingCSV(transactions)`. -/
def generateBudgetingCSV (ts : List NormalizedTransaction) : String :=
  joinWith "\n"
    (joinWith "," ["Date", "Payee", "Memo", "Outflow", "Inflow"] :: ts.map budgetingRow)

/-- One data row of `generateTradingCSV`. -/
def tradingRow (t : NormalizedTransaction) : String :=
  let isTransferRow :=
    t.action = some "Deposit" ∨ t.action = some "Withdrawal" ∨ t.action = some "Transfer"
  let symbol := if isTransferRow then "" else t.symbol.getD ""
  let quantity :=
    if isTransferRow then ""
    else match t.quantity with
         | some q => numToString q
         | none => ""
  let price :=
    if isTransferRow then ""
    else match t.price with
         | some p => toFixedQ 4 p
         | none => ""
  joinWith "," [t.date,
    escapeCSVField (match t.action with
                    | some s => if s ≠ "" then s else t.category
                    | none => t.category),
    escapeCSVField symbol, escapeCSVField t.description, quantity, price,
    toFixedQ 2 t.amount, t.currency, ""]

/-- `generateTradingCSV(transactions)`. -/
def generateTradingCSV (ts : List NormalizedTransaction) : String :=
  joinWith "\n"
    (joinWith "," ["Date", "Action", "Symbol", "Description", "Quantity", "Price",
      "Amount", "Currency", "Exchange Rate"] :: ts.map tradingRow)

/-- The per-transaction trading signal of `generateCSV`: a non-currency symbol,
a positive quantity, or a `Buy`/`Sell` action. -/
def tradingSignal (t : NormalizedTransaction) : Bool :=
  (match t.symbol with
   | some s => decide (s ≠ "" ∧ s ≠ "CAD" ∧ s ≠ "USD")
   | none => false) ||
  (match t.quantity with
   | some q => decide (0 < q)
   | none => false) ||
  (match t.action with
   | some s => decide (s ≠ "") && (["Buy", "Sell"] : List String).contains s
   | none => false)

/-- The batch-level format selector of `generateCSV`. -/
def hasTradingData (ts : List NormalizedTransaction) : Bool := ts.any tradingSignal

/-- `generateCSV(transactions)`: trading layout when any transaction carries a
trading signal, budgeting layout otherwise. -/
def generateCSV (ts : List NormalizedTransaction) : String :=
  if hasTradingData ts then generateTradingCSV ts else generateBudgetingCSV ts

/-! ## Claim C7 -/

/-- Modelled from the spec: the CSV unescaping direction of the round-trip
sentence ("strip surrounding quotes, halve doubled quotes"); the repository has
no unescaper of its own. -/
def halveQuotes : List Char → List Char
  | [] => []
  | [c] => [c]
  | c :: d :: rest =>
    if c = '"' ∧ d = '"' then '"' :: halveQuotes rest else c :: halveQuotes (d :: rest)

/-- Modelled from the spec: strip one surrounding quote pair and halve doubled
quotes; anything not quote-wrapped is returned unchanged. -/
def unescapeCSVField (field : String) : String :=
  let l := field.toList
  if l.head? = some '"' ∧ l.getLast? = some '"' ∧ 2 ≤ l.length then
    String.mk (halveQuotes (l.drop 1).dropLast)
  else field

theorem halveQuotes_cons_of_ne (c : Char) (l : List Char) (h : ¬c = '"') :
    halveQuotes (c :: l) = c :: halveQuotes l := by
  cases l with
  | nil => rfl
  | cons d rest => simp [halveQuotes, h]

theorem halveQuotes_doubleQuotes (l : List Char) :
    halveQuotes (doubleQuotes l) = l := by
  induction l with
  | nil => rfl
  | cons c rest ih =>
    by_cases hc : c = '"'
    · subst hc
      simp [doubleQuotes, halveQuotes, ih]
    · rw [doubleQuotes, if_neg hc, halveQuotes_cons_of_ne c _ hc, ih]

/-- **C7.** A field is quoted with internal quotes doubled exactly when it
contains a comma, a quote, or a line-break character, and is emitted verbatim
otherwise; consequently unescaping recovers the original string for every
field containing such a character. -/
theorem claim_C7 (s : String) :
    ((s.toList.contains ',' = true ∨ s.toList.contains '"' = true ∨
      s.toList.contains '\n' = true ∨ s.toList.contains '\r' = true) →
      escapeCSVField s = "\"" ++ String.mk (doubleQuotes s.toList) ++ "\"" ∧
      unescapeCSVField (escapeCSVField s) = s) ∧
    (¬(s.toList.contains ',' = true ∨ s.toList.contains '"' = true ∨
       s.toList.contains '\n' = true ∨ s.toList.contains '\r' = true) →
      escapeCSVField s = s) := by
  constructor
  · intro h
    have hesc : escapeCSVField s = "\"" ++ String.mk (doubleQuotes s.toList) ++ "\"" := by
      unfold escapeCSVField
      rw [if_pos]
      simp only [Bool.or_eq_true] at h ⊢
      tauto
    refine ⟨hesc, ?_⟩
    rw [hesc]
    unfold unescapeCSVField
    cases s with
    | mk data =>
      simp only [String.toList]
      rw [if_pos]
      · simp only [String.data_append]
        have hdrop :
            ((("\"" : String).data ++ (String.mk (doubleQuotes data)).data ++
              ("\"" : String).data).drop 1).dropLast = doubleQuotes data := by
          simp [String.mk]
        rw [hdrop, halveQuotes_doubleQuotes]
      · refine ⟨?_, ?_, ?_⟩
        · simp [String.mk]
        · simp only [String.mk, String.data_append]
          exact List.getLast?_concat _
        · simp [String.mk, List.length_append]
  · intro h
    unfold escapeCSVField
    rw [if_neg]
    simp only [Bool.or_eq_true] at h ⊢
    tauto

/-- Witness for C7 at a field containing a comma and a quote. -/
theorem claim_C7_witness :
    escapeCSVField "a,\"b\"" =
        "\"" ++ String.mk (doubleQuotes ("a,\"b\"").toList) ++ "\"" ∧
      unescapeCSVField (escapeCSVField "a,\"b\"") = "a,\"b\"" :=
  (claim_C7 "a,\"b\"").1 (Or.inl (by decide))

/-! ## Claim C5 -/

theorem length_pos_iff_ne_empty (s : String) : 0 < s.length ↔ s ≠ "" := by
  cases s with
  | mk data => cases data <;> simp [String.length, String.ext_iff]

theorem toFixedQ_two_ne_empty (q : ℚ) : toFixedQ 2 q ≠ "" := by
  unfold toFixedQ toFixedNat
  intro hc
  have hlen := congrArg String.length hc
  have e0 : ("" : String).length = 0 := rfl
  have e1 : ("-" : String).length = 1 := rfl
  have e2 : ("." : String).length = 1 := rfl
  split_ifs at hlen <;>
    simp only [String.length_append, e0, e1, e2] at hlen <;>
    first
    | contradiction
    | omega

/-- **C5 (amended).** In every budgeting-CSV data row, exactly one of Outflow
and Inflow is non-empty: Outflow is `abs(amount)` to 2 decimals exactly when
`amount < 0`, Inflow is the amount to 2 decimals exactly when `amount ≥ 0`;
the header row is exactly `Date,Payee,Memo,Outflow,Inflow`; and the Memo
column is `category ++ " | " ++ accountId` whenever both components are
non-empty (an empty component is omitted together with the separator, which is
the amendment). -/
theorem claim_C5 (ts : List NormalizedTransaction) (t : NormalizedTransaction)
    (_ht : t ∈ ts) :
    generateBudgetingCSV ts =
      joinWith "\n" ("Date,Payee,Memo,Outflow,Inflow" :: ts.map budgetingRow) ∧
    budgetingRow t =
      joinWith "," [t.date, escapeCSVField (derivePayee t.description),
        escapeCSVField (budgetMemo t), budgetOutflow t, budgetInflow t] ∧
    (t.amount < 0 → budgetOutflow t = toFixedQ 2 |t.amount| ∧ budgetInflow t = "") ∧
    (0 ≤ t.amount → budgetOutflow t = "" ∧ budgetInflow t = toFixedQ 2 t.amount) ∧
    (budgetOutflow t = "" ↔ ¬budgetInflow t = "") ∧
    (t.category ≠ "" → t.accountId ≠ "" →
      budgetMemo t = t.category ++ " | " ++ t.accountId) := by
  refine ⟨rfl, rfl, fun h => ?_, fun h => ?_, ?_, fun hc ha => ?_⟩
  · exact ⟨by rw [budgetOutflow, if_pos h], by rw [budgetInflow, if_neg (not_le.mpr h)]⟩
  · exact ⟨by rw [budgetOutflow, if_neg (not_lt.mpr h)], by rw [budgetInflow, if_pos h]⟩
  · by_cases h : t.amount < 0
    · rw [budgetOutflow, if_pos h, budgetInflow, if_neg (not_le.mpr h)]
      simp [toFixedQ_two_ne_empty]
    · rw [budgetOutflow, if_neg h, budgetInflow, if_pos (not_lt.mp h)]
      simp [toFixedQ_two_ne_empty]
  · rw [budgetMemo, if_neg hc, if_neg ha]
    rfl

/-- Witness inputs for C5. -/
def c5Witness : NormalizedTransaction :=
  { id := "t1", date := "2024-01-15", description := "Credit card purchase: Starbucks",
    amount := -46, currency := "CAD", category := "Purchase",
    accountId := "acc1", symbol := none, action := none, quantity := none, price := none }

theorem claim_C5_witness :
    budgetOutflow c5Witness = toFixedQ 2 |c5Witness.amount| ∧
    budgetInflow c5Witness = "" ∧
    budgetMemo c5Witness = c5Witness.category ++ " | " ++ c5Witness.accountId := by
  have h := claim_C5 [c5Witness] c5Witness (by simp)
  exact ⟨(h.2.2.1 (by decide)).1, (h.2.2.1 (by decide)).2,
         h.2.2.2.2.2 (by decide) (by decide)⟩

/-- Counterexample input for C5: an (admissible for the codec) transaction with
an empty category. -/
def c5CexTransaction : NormalizedTransaction :=
  { id := "t5", date := "2024-01-01", description := "Interest", amount := 5,
    currency := "CAD", category := "", accountId := "acc1", symbol := none,
    action := none, quantity := none, price := none }

/-- The Memo column is not `category ++ " | " ++ accountId` when the category
is empty: the code drops the empty component and the separator. -/
theorem claim_C5_counterexample :
    budgetMemo c5CexTransaction ≠
        c5CexTransaction.category ++ " | " ++ c5CexTransaction.accountId ∧
      budgetMemo c5CexTransaction = "acc1" := by
  constructor <;> decide

/-! ## Claim C8 -/

/-- **C8 (amended).** `derivePayee` first trims the description, then strips the
primary prefixes (`Withdrawal:`, `Deposit:`, `Credit card purchase:`,
`Credit card hold:`, `Credit card refund:`, each case-insensitive, with any
following whitespace) and then the secondary ones (`AFT`, `e-Transfer`, `EFT`,
`Bill pay`, each followed by at least one whitespace character), in order; when
stripping (after a final trim) yields the empty string, the *trimmed* original
description is returned — not the untouched input, which is the amendment. -/
theorem claim_C8 (d : String) :
    derivePayee d =
      (if trimStr (secondaryPats.foldl stripSecondaryPat
            (primaryPats.foldl stripPrimaryPat (trimStr d))) = "" then trimStr d
       else trimStr (secondaryPats.foldl stripSecondaryPat
            (primaryPats.foldl stripPrimaryPat (trimStr d)))) := by
  unfold derivePayee
  by_cases h : trimStr (secondaryPats.foldl stripSecondaryPat
      (primaryPats.foldl stripPrimaryPat (trimStr d))) = ""
  · rw [if_pos h]
    simp only [h]
    rw [if_neg]
    simp [String.length]
  · rw [if_neg h]
    rw [if_pos ((length_pos_iff_ne_empty _).mpr h)]

/-- A description with leading whitespace whose body strips to empty: the code
returns the trimmed description, not the untouched original. -/
theorem claim_C8_counterexample :
    derivePayee " Deposit:" = "Deposit:" ∧ derivePayee " Deposit:" ≠ " Deposit:" := by
  constructor <;> decide

/-! ## Claim C9 -/

/-- **C9 (amended).** For every internal-transfer / asset-movement activity the
description is `Transfer to {ref}` (subtype `SOURCE`) or `Transfer from {ref}`
(any other subtype), where `{ref}` is the display name found for the opposing
account id in the caller-supplied mapping; the raw opposing id is used when the
mapping has no entry *or maps the id to the empty string* (first amendment),
and the literal `unknown` is used when the activity has no opposing account id
at all (second amendment). -/
theorem claim_C9 (a : Activity) (m : List (String × String))
    (hty : a.type = "INTERNAL_TRANSFER" ∨ a.type = "ASSET_MOVEMENT") :
    generateDescription a m =
      "Transfer " ++ (if a.subType = some "SOURCE" then "to" else "from") ++ " " ++
        (match a.opposingAccountId with
         | none => "unknown"
         | some oid =>
           if oid ≠ "" then
             match lookupName m oid with
             | some n => if n ≠ "" then n else oid
             | none => oid
           else oid) := by
  unfold generateDescription
  rcases hty with h | h <;>
    simp only [h] <;>
    rw [if_neg (by decide), if_neg (by decide),
        if_neg (fun hc => absurd hc.1 (by decide)),
        if_neg (fun hc => absurd hc.1 (by decide)),
        if_neg (fun hc => absurd hc.1 (by decide)),
        if_neg (fun hc => absurd hc.1 (by decide)),
        if_neg (by decide), if_pos (by decide)]

/-- Witness input for C9: a transfer leg with a mapped opposing account. -/
def c9WitnessActivity : Activity :=
  { baseActivity with
    type := "INTERNAL_TRANSFER"
    subType := some "SOURCE"
    opposingAccountId := some "acc2"
    canonicalId := "t9" }

theorem claim_C9_witness :
    generateDescription c9WitnessActivity [("acc2", "TFSA")] = "Transfer to TFSA" :=
  (claim_C9 c9WitnessActivity [("acc2", "TFSA")] (Or.inl rfl)).trans (by decide)

/-- Counterexample input for C9: the mapping carries an entry whose display
name is empty. -/
def c9CexActivity : Activity :=
  { baseActivity with
    type := "INTERNAL_TRANSFER"
    subType := some "SOURCE"
    opposingAccountId := some "acc2"
    canonicalId := "t9c" }

/-- With an (empty-string) display name present in the mapping, the claim's
resolution rule (entry, else raw id) predicts `Transfer to `, but the code
falls back to the raw id because the entry is falsy. -/
theorem claim_C9_counterexample :
    generateDescription c9CexActivity [("acc2", "")] = "Transfer to acc2" ∧
    generateDescription c9CexActivity [("acc2", "")] ≠
      "Transfer to " ++ ((lookupName [("acc2", "")] "acc2").getD "acc2") := by
  constructor
  · exact (claim_C9 c9CexActivity [("acc2", "")] (Or.inl rfl)).trans (by decide)
  · rw [(claim_C9 c9CexActivity [("acc2", "")] (Or.inl rfl))]
    decide

/-! ## Claim C10 -/

/-- **C10 (amended).** `normalizeTransaction` populates the optional trading
fields rather than leaving them unset: `action` is always `some (deriveAction
activity)` and `symbol` copies `assetSymbol` (quantity/price are filled when
parsable, per the definition); consequently `generateCSV` emits the budgeting
layout exactly for batches with no trading signal, and the trading layout as
soon as one transaction carries a non-currency symbol, positive quantity, or
`Buy`/`Sell` action. -/
theorem claim_C10 (a : Activity) (m : List (String × String)) (cc : Bool)
    (ts : List NormalizedTransaction) :
    (normalizeTransaction a m cc).action = some (deriveAction a) ∧
    (normalizeTransaction a m cc).symbol = a.assetSymbol ∧
    (hasTradingData ts = false → generateCSV ts = generateBudgetingCSV ts) ∧
    (hasTradingData ts = true → generateCSV ts = generateTradingCSV ts) := by
  refine ⟨rfl, rfl, fun h => ?_, fun h => ?_⟩ <;> unfold generateCSV <;> simp [h]

/-- Counterexample input for C10: a normalized buy activity. -/
def c10Activity : Activity :=
  { baseActivity with
    type := "DIY_BUY"
    amount := some "1000.00"
    amountSign := some AmountSign.DEBIT
    assetSymbol := some "AAPL"
    assetQuantity := some "10"
    canonicalId := "buy-1" }

/-- The normalizer's output does carry trading fields (`action` is set), and a
batch of normalizer output containing a buy selects the trading layout, not the
budgeting one. -/
theorem claim_C10_counterexample :
    (normalizeTransaction c10Activity [] false).action ≠ none ∧
    hasTradingData [normalizeTransaction c10Activity [] false] = true ∧
    generateCSV [normalizeTransaction c10Activity [] false] =
      generateTradingCSV [normalizeTransaction c10Activity [] false] := by
  have hsig : hasTradingData [normalizeTransaction c10Activity [] false] = true := by
    decide
  refine ⟨?_, hsig, ?_⟩
  · intro hc
    exact Option.noConfusion hc
  · unfold generateCSV
    simp [hsig]

/-- Witness input for C10: a transaction with no trading signal. -/
def c10Plain : NormalizedTransaction :=
  { id := "p1", date := "2024-01-01", description := "Interest", amount := 1,
    currency := "CAD", category := "Interest", accountId := "acc1", symbol := none,
    action := none, quantity := none, price := none }

theorem claim_C10_witness :
    (normalizeTransaction c10Activity [] false).action = some (deriveAction c10Activity) ∧
    generateCSV [c10Plain] = generateBudgetingCSV [c10Plain] :=
  ⟨(claim_C10 c10Activity [] false []).1,
   (claim_C10 c10Activity [] false [c10Plain]).2.2.1 (by decide)⟩

/-! ## OFX codec fragments (`src/utils/exporters/ofx.ts`) -/

/-- The `&`/`<`/`>` entity replacements of `sanitizeValue` (the three
sequential global replaces act like one simultaneous pass, since no
replacement output is re-scanned by a later pattern's match). -/
def expandEntities : List Char → List Char
  | [] => []
  | c :: rest =>
    if c = '&' then '&' :: 'a' :: 'm' :: 'p' :: ';' :: expandEntities rest
    else if c = '<' then '&' :: 'l' :: 't' :: ';' :: expandEntities rest
    else if c = '>' then '&' :: 'g' :: 't' :: ';' :: expandEntities rest
    else c :: expandEntities rest

/-- The `/\r?\n/g → ' '` replacement of `sanitizeValue` (a lone `\r` is not a
match of the pattern and is kept). -/
def collapseBreaks : List Char → List Char
  | [] => []
  | '\r' :: '\n' :: rest => ' ' :: collapseBreaks rest
  | '\n' :: rest => ' ' :: collapseBreaks rest
  | c :: rest => c :: collapseBreaks rest

/-- `sanitizeValue(value)`: escape `&`, `<`, `>`, collapse line breaks to
spaces, trim. -/
def sanitizeValue (value : String) : String :=
  trimStr (String.mk (collapseBreaks (expandEntities value.toList)))

/-- One step of the DJB2-XOR loop: `hash = ((hash << 5) + hash) ^ code`, as an
unsigned 32-bit value (the JS int32/`>>>0` round trip is the residue
mod `2^32`). -/
def hash32Step (h : ℕ) (c : Char) : ℕ := ((33 * h) % 4294967296) ^^^ c.toNat

/-- `hash32(input)`: the DJB2-XOR hash of the string, as 8 lowercase hex
digits (zero-padded). -/
def hash32 (input : String) : String :=
  let h := input.toList.foldl hash32Step 5381
  let ds := Nat.toDigits 16 h
  String.mk (List.replicate (8 - ds.length) '0' ++ ds)

/-- `isInternalTransfer(transaction)`: category `Transfer`, action `Transfer`,
or a description starting (case-insensitively) with `transfer `. -/
def isInternalTransfer (t : NormalizedTransaction) : Bool :=
  t.category == "Transfer" || t.action == some "Transfer" ||
    leadsWith (asciiToLower t.description) "transfer "

/-- `generateFitId(transaction)`: the sanitized id, discriminated for transfer
legs by a hash of `id|accountId|direction` (the source returns the plain
sanitized id early for non-transfers; the branch order is inverted here). -/
def generateFitId (t : NormalizedTransaction) : String :=
  if isInternalTransfer t then
    let direction := if t.amount < 0 then "OUT" else "IN"
    let discriminator := t.id ++ "|" ++ t.accountId ++ "|" ++ direction
    sanitizeValue t.id ++ "-" ++ hash32 discriminator
  else sanitizeValue t.id

/-! ## Claim C6 -/

/-- **C6 (amended).** FITID generation is deterministic (a pure function); a
non-transfer transaction gets the sanitized id verbatim; a transfer leg gets
`sanitized-id ++ "-" ++ hash32(id|accountId|direction)` with direction `OUT`
exactly when the amount is negative; and the two legs of one transfer (same
id, opposite-sign amounts, different account ids) receive distinct FITIDs
*whenever `hash32` differs on their two discriminator strings* — the
amendment: `hash32` is a 32-bit hash, so colliding account-id pairs exist on
which both legs share one FITID (see the counterexample). -/
theorem claim_C6 (t t₁ t₂ : NormalizedTransaction) :
    generateFitId t = generateFitId t ∧
    (isInternalTransfer t = false → generateFitId t = sanitizeValue t.id) ∧
    (isInternalTransfer t = true →
      generateFitId t = sanitizeValue t.id ++ "-" ++
        hash32 (t.id ++ "|" ++ t.accountId ++ "|" ++
          (if t.amount < 0 then "OUT" else "IN"))) ∧
    (isInternalTransfer t₁ = true → isInternalTransfer t₂ = true →
      t₁.id = t₂.id → t₁.amount < 0 → 0 ≤ t₂.amount →
      hash32 (t₁.id ++ "|" ++ t₁.accountId ++ "|" ++ "OUT") ≠
        hash32 (t₂.id ++ "|" ++ t₂.accountId ++ "|" ++ "IN") →
      generateFitId t₁ ≠ generateFitId t₂) := by
  refine ⟨rfl, fun h => ?_, fun h => ?_, fun h1 h2 hid hneg hpos hh hc => ?_⟩
  · unfold generateFitId
    rw [if_neg]
    simp [h]
  · unfold generateFitId
    rw [if_pos h]
  · unfold generateFitId at hc
    rw [if_pos h1, if_pos h2, if_pos hneg, if_neg (not_lt.mpr hpos)] at hc
    rw [hid] at hc
    have hdata := congrArg String.data hc
    simp only [String.data_append, List.append_assoc] at hdata
    exact hh (by
      rw [hid]
      exact String.ext (List.append_cancel_left (List.append_cancel_left hdata)))

/-- The two legs of the collision counterexample: same transfer id `t1`,
opposite signs, different account ids whose discriminator strings collide
under `hash32` (both hash to `ac2f90d4`). -/
def legOut : NormalizedTransaction :=
  { id := "t1", date := "2024-01-01", description := "Transfer to Cash",
    amount := -5, currency := "CAD", category := "Transfer", accountId := "d4mv1",
    symbol := none, action := some "Transfer", quantity := none, price := none }

def legIn : NormalizedTransaction :=
  { legOut with accountId := "aaaadw", amount := 5, description := "Transfer from TFSA" }

/-- Two transfer legs with the same id, opposite-sign amounts and different
account ids that receive the *same* FITID: `hash32` collides on
`t1|d4mv1|OUT` and `t1|aaaadw|IN`. -/
theorem claim_C6_counterexample :
    legOut.id = legIn.id ∧ legOut.accountId ≠ legIn.accountId ∧
    legOut.amount < 0 ∧ 0 < legIn.amount ∧
    generateFitId legOut = generateFitId legIn := by
  refine ⟨rfl, by decide, by decide, by decide, ?_⟩
  decide

/-- Witness legs for C6 whose discriminators do not collide. -/
def wLegOut : NormalizedTransaction := { legOut with accountId := "acc1" }

def wLegIn : NormalizedTransaction := { legIn with accountId := "acc2" }

theorem claim_C6_witness : generateFitId wLegOut ≠ generateFitId wLegIn :=
  (claim_C6 wLegOut wLegOut wLegIn).2.2.2 (by decide) (by decide) rfl
    (by decide) (by decide) (by decide)
